import Mathlib

/-!
Shallow embedding of `src/objectModel/Python/cdm/storage/network.py` (class `NetworkAdapter`).

Modelling conventions:
* Python integers and the millisecond durations stored on the adapter are modelled as `Int`
  (`update_network_config` stores `float(...)` for the two timeouts; all values of interest
  are integral milliseconds, so `Int` represents them exactly).
* The adapter's mutable attributes `timeout`, `maximum_timeout`, `number_of_retries` form the
  state record `NetworkAdapter`; methods that mutate `self` are state-passing functions.
* `random.randint(0, 2**retry_number)` draws an integer uniformly from the inclusive range
  `[0, 2**retry_number]`; the draw is modelled as an explicit parameter `rand : Nat`,
  constrained by `rand ≤ 2 ^ retry_number` in the theorems.
* `json.loads` is library code: `update_network_config` receives the parse result directly,
  `none` standing for a raised `json.JSONDecodeError` (which in Python occurs before any
  assignment to `self`), `some obj` for a successfully parsed JSON object.  A JSON object is
  an association list of key/value pairs (Python dicts from `json.loads` have unique keys;
  lookup takes the first match).  Configuration payload values of interest are JSON numbers
  or `null`; `dict.get(k) is not None` is false both for a missing key and for a `null` value.
* `await self._http_client.send_async(...)` is the external transport: `_read` receives its
  result as an input, `none` standing for an undefined (`None`) result.
-/

def DEFAULT_TIMEOUT : Int := 2000

def DEFAULT_NUMBER_OF_RETRIES : Int := 2

def DEFAULT_MAXIMUM_TIMEOUT : Int := 10000

def DEFAULT_SHORTEST_WAIT_TIME : Nat := 500

/-- Mirror of `cdm_http_response.CdmHttpResponse` as consumed by `network.py`:
`status_code`, `content`, `response_headers`, `is_successful`. -/
structure CdmHttpResponse where
  status_code : Int
  content : String
  response_headers : List (String × String)
  is_successful : Bool
deriving DecidableEq

/-- Mirror of `cdm_http_request.CdmHttpRequest` as populated by
`NetworkAdapter._set_up_cdm_request`. -/
structure CdmHttpRequest where
  requested_url : String
  headers : List (String × String)
  method : String
  timeout : Int
  maximum_timeout : Int
  number_of_retries : Int
deriving DecidableEq

/-- Mutable configuration state of a `NetworkAdapter` instance. -/
structure NetworkAdapter where
  timeout : Int
  maximum_timeout : Int
  number_of_retries : Int
deriving DecidableEq

/-- `NetworkAdapter.__init__`: all three fields start at the class defaults. -/
def NetworkAdapter.init : NetworkAdapter :=
  { timeout := DEFAULT_TIMEOUT
    maximum_timeout := DEFAULT_MAXIMUM_TIMEOUT
    number_of_retries := DEFAULT_NUMBER_OF_RETRIES }

/-- `NetworkAdapter._set_up_cdm_request`: build a request and copy the adapter's
current `timeout`, `maximum_timeout` and `number_of_retries` into it. -/
def NetworkAdapter.set_up_cdm_request (s : NetworkAdapter) (path : String)
    (headers : List (String × String)) (method : String) : CdmHttpRequest :=
  { requested_url := path
    headers := headers
    method := method
    timeout := s.timeout
    maximum_timeout := s.maximum_timeout
    number_of_retries := s.number_of_retries }

/-- Errors raised by `NetworkAdapter._read`. -/
inductive ReadError
  /-- The bare `Exception` raised when the transport produced no outcome. -/
  | resultUndefined (msg : String)
  /-- `urllib.error.HTTPError(url, code, msg, hdrs, fp)` raised on an unsuccessful outcome. -/
  | httpError (url : String) (code : Int) (msg : String) (hdrs : List (String × String))
deriving DecidableEq

/-- `NetworkAdapter._read`: given the transport's result (the value of
`await self._http_client.send_async(...)`, `none` if it was `None`), either return the
response content or raise. -/
def NetworkAdapter.read (request : CdmHttpRequest) (result : Option CdmHttpResponse) :
    Except ReadError String :=
  match result with
  | none => .error (.resultUndefined "The result of a request is undefined.")
  | some r =>
    if r.is_successful = false then
      .error (.httpError request.requested_url r.status_code "Failed to read"
        r.response_headers)
    else
      .ok r.content

/-- `NetworkAdapter._default_get_wait_time`: `rand` models the draw
`random.randint(0, 2**retry_number)` (inclusive on both ends); the method returns
`None` on a fully successful outcome and `rand * DEFAULT_SHORTEST_WAIT_TIME` otherwise.
`retry_number` enters the real computation only through the bound on the draw, which the
theorems impose as `rand ≤ 2 ^ retry_number`. -/
def NetworkAdapter.default_get_wait_time (rand : Nat) (response : Option CdmHttpResponse)
    (has_failed : Bool) (_retry_number : Nat) : Option Nat :=
  if (match response with
      | some r => r.is_successful && !has_failed
      | none => false) then
    none
  else
    some (rand * DEFAULT_SHORTEST_WAIT_TIME)

/-- JSON values that can appear under the configuration keys `network.py` reads:
numbers (stored via `float(...)` or `int(...)`, modelled exactly as `Int`) and `null`. -/
inductive JValue
  | null
  | num (x : Int)
deriving DecidableEq

/-- A parsed JSON object: an association list, first match wins on lookup
(keys of a Python dict are unique, so first and last match coincide). -/
def JObj : Type := List (String × JValue)

/-- `dict.get`: first binding of the key, `none` if absent. -/
def jget : JObj → String → Option JValue
  | [], _ => none
  | (k, v) :: rest, key => if k = key then some v else jget rest key

/-- Errors of the configuration and construction operations. -/
inductive CdmError
  | invalidArgument
  | configParseError
deriving DecidableEq

/-- `NetworkAdapter.update_network_config`: `parsed` is the result of
`json.loads(config)` (`none` = the parse raised, which happens before any assignment
to `self`).  Each of the three known keys overwrites its field exactly when
`configs_json.get(key) is not None`, i.e. when the key is bound to a number. -/
def NetworkAdapter.update_network_config (s : NetworkAdapter) (parsed : Option JObj) :
    NetworkAdapter × Option CdmError :=
  match parsed with
  | none => (s, some CdmError.configParseError)
  | some obj =>
    let s1 := match jget obj "timeout" with
      | some (JValue.num x) => { s with timeout := x }
      | _ => s
    let s2 := match jget obj "maximumTimeout" with
      | some (JValue.num x) => { s1 with maximum_timeout := x }
      | _ => s1
    let s3 := match jget obj "numberOfRetries" with
      | some (JValue.num x) => { s2 with number_of_retries := x }
      | _ => s2
    (s3, none)

/-- Snapshot returned by `NetworkAdapter.fetch_network_config`. -/
structure NetworkConfigSnapshot where
  timeout : Int
  maximumTimeout : Int
  numberOfRetries : Int
deriving DecidableEq

/-- `NetworkAdapter.fetch_network_config`: emit the current three fields. -/
def NetworkAdapter.fetch_network_config (s : NetworkAdapter) : NetworkConfigSnapshot :=
  { timeout := s.timeout
    maximumTimeout := s.maximum_timeout
    numberOfRetries := s.number_of_retries }

/-- Supported request verbs per the spec's method enumeration. -/
def SUPPORTED_METHODS : List String := ["GET", "POST", "PUT", "DELETE"]

/-- Modelled from the spec: the `CdmHttpRequest` class
(`cdm/utilities/network/cdm_http_request.py`) is not under `src/`, so the argument
validation the spec assigns to request construction is taken from the spec's words:
construction fails with `InvalidArgument` if the target is empty or the method is not a
supported verb, and otherwise is pure construction of the descriptor that
`_set_up_cdm_request` populates. -/
def NetworkAdapter.build_request (s : NetworkAdapter) (path : String)
    (headers : List (String × String)) (method : String) : Except CdmError CdmHttpRequest :=
  if path = "" ∨ SUPPORTED_METHODS.contains method = false then
    .error CdmError.invalidArgument
  else
    .ok (s.set_up_cdm_request path headers method)

/-! Theorems settling the claims. -/

/-- C9: on a freshly constructed adapter the effective defaults are timeout = 2000 ms,
maximum_timeout = 10000 ms, number_of_retries = 2 and shortest_wait_unit = 500 ms, and
`fetch_network_config` reflects the first three. -/
theorem C9_fresh_adapter_defaults :
    NetworkAdapter.init.timeout = 2000 ∧
    NetworkAdapter.init.maximum_timeout = 10000 ∧
    NetworkAdapter.init.number_of_retries = 2 ∧
    DEFAULT_SHORTEST_WAIT_TIME = 500 ∧
    NetworkAdapter.init.fetch_network_config =
      { timeout := 2000, maximumTimeout := 10000, numberOfRetries := 2 } := by
  refine ⟨rfl, rfl, rfl, rfl, rfl⟩

/-- C10: when the configuration payload fails to parse, `update_network_config` raises
`ConfigParseError` and every configuration field keeps exactly its prior value (the parse
happens before any assignment to `self`). -/
theorem C10_parse_failure_is_atomic (s : NetworkAdapter) :
    s.update_network_config none = (s, some CdmError.configParseError) ∧
    (s.update_network_config none).1.timeout = s.timeout ∧
    (s.update_network_config none).1.maximum_timeout = s.maximum_timeout ∧
    (s.update_network_config none).1.number_of_retries = s.number_of_retries := by
  refine ⟨rfl, rfl, rfl, rfl⟩

/-- C2: the default wait-time policy returns the no-wait sentinel `None` iff a response is
present, successful, and `has_failed` is false; in every other case it returns the numeric
wait time `rand * DEFAULT_SHORTEST_WAIT_TIME`. -/
theorem C2_no_wait_sentinel_iff_success (rand n : Nat) (response : Option CdmHttpResponse)
    (has_failed : Bool) :
    (NetworkAdapter.default_get_wait_time rand response has_failed n = none ↔
      ∃ r, response = some r ∧ r.is_successful = true ∧ has_failed = false) ∧
    ((¬ ∃ r, response = some r ∧ r.is_successful = true ∧ has_failed = false) →
      NetworkAdapter.default_get_wait_time rand response has_failed n =
        some (rand * DEFAULT_SHORTEST_WAIT_TIME)) := by
  constructor
  · cases response with
    | none => simp [NetworkAdapter.default_get_wait_time]
    | some r =>
      cases hb : r.is_successful <;> cases has_failed <;>
        simp [NetworkAdapter.default_get_wait_time, hb]
  · intro hfail
    cases response with
    | none => simp [NetworkAdapter.default_get_wait_time]
    | some r =>
      cases hb : r.is_successful with
      | false => simp [NetworkAdapter.default_get_wait_time, hb]
      | true =>
        cases hf : has_failed with
        | false => exact absurd ⟨r, rfl, hb, hf⟩ hfail
        | true => simp [NetworkAdapter.default_get_wait_time, hb]

/-- C2 witness: concrete failing path (no response, transport fault) yields the numeric
wait time. -/
theorem C2_no_wait_sentinel_iff_success_witness :
    NetworkAdapter.default_get_wait_time 3 none true 1 =
      some (3 * DEFAULT_SHORTEST_WAIT_TIME) :=
  (C2_no_wait_sentinel_iff_success 3 1 none true).2
    (by rintro ⟨r, hr, -, -⟩; exact Option.noConfusion hr)

/-- C1 counterexample: `random.randint(0, 2**retry_number)` is inclusive of the upper end,
so at retry_number 1 the admissible draw rand = 2 (2 ≤ 2^1) on a failing path yields wait
time 1000, which exceeds the claimed bound (2^1 - 1) * 500 = 500. -/
theorem C1_upper_bound_counterexample :
    2 ≤ 2 ^ 1 ∧
    NetworkAdapter.default_get_wait_time 2 none true 1 = some 1000 ∧
    ¬ (1000 ≤ (2 ^ 1 - 1) * DEFAULT_SHORTEST_WAIT_TIME) := by
  refine ⟨by decide, by decide, by decide⟩

/-- C1 (amended): for every retry_number n in [1, retry_budget] and every admissible draw
rand ≤ 2^n, the default wait-time policy on a failing path (response absent, or response
unsuccessful, or has_failed true) returns a numeric wait time lying in
[0, 2^n * shortest_wait_unit]. -/
theorem C1_wait_time_in_range (rand n budget : Nat) (response : Option CdmHttpResponse)
    (has_failed : Bool) (_hn : 1 ≤ n) (_hb : n ≤ budget) (hr : rand ≤ 2 ^ n)
    (hfail : response = none ∨ (∃ r, response = some r ∧ r.is_successful = false) ∨
      has_failed = true) :
    ∃ w, NetworkAdapter.default_get_wait_time rand response has_failed n = some w ∧
      w ≤ 2 ^ n * DEFAULT_SHORTEST_WAIT_TIME := by
  refine ⟨rand * DEFAULT_SHORTEST_WAIT_TIME, ?_, Nat.mul_le_mul hr le_rfl⟩
  rcases hfail with hnone | ⟨r, hr', hsucc⟩ | hf
  · subst hnone; rfl
  · subst hr'; simp [NetworkAdapter.default_get_wait_time, hsucc]
  · subst hf
    cases response with
    | none => rfl
    | some r => simp [NetworkAdapter.default_get_wait_time]

/-- C1 witness: at n = 1 within budget 2, draw 2 on a transport-fault path gives wait time
1000 ≤ 2^1 * 500. -/
theorem C1_wait_time_in_range_witness :
    ∃ w, NetworkAdapter.default_get_wait_time 2 none true 1 = some w ∧
      w ≤ 2 ^ 1 * DEFAULT_SHORTEST_WAIT_TIME :=
  C1_wait_time_in_range 2 1 2 none true (by decide) (by decide) (by decide) (Or.inl rfl)

/-- C3: `_read` returns the outcome's body when the outcome exists and is successful;
raises an HTTP error carrying that outcome's status code and response headers when the
outcome exists and is unsuccessful; raises the transport-error wrapper when no outcome was
produced; and never returns a body on a failure path. -/
theorem C3_read_classification (request : CdmHttpRequest) (result : Option CdmHttpResponse) :
    (∀ r, result = some r → r.is_successful = true →
      NetworkAdapter.read request result = .ok r.content) ∧
    (∀ r, result = some r → r.is_successful = false →
      NetworkAdapter.read request result =
        .error (.httpError request.requested_url r.status_code "Failed to read"
          r.response_headers)) ∧
    (result = none →
      NetworkAdapter.read request result =
        .error (.resultUndefined "The result of a request is undefined.")) ∧
    ((result = none ∨ ∃ r, result = some r ∧ r.is_successful = false) →
      ∀ body, NetworkAdapter.read request result ≠ .ok body) := by
  refine ⟨?_, ?_, ?_, ?_⟩
  · intro r hr hsucc
    subst hr
    simp [NetworkAdapter.read, hsucc]
  · intro r hr hsucc
    subst hr
    simp [NetworkAdapter.read, hsucc]
  · intro hnone
    subst hnone
    rfl
  · rintro (hnone | ⟨r, hr, hsucc⟩) body
    · subst hnone
      simp [NetworkAdapter.read]
    · subst hr
      simp [NetworkAdapter.read, hsucc]

/-- C3 witness: a concrete successful outcome returns its body, and a concrete
unsuccessful outcome raises the HTTP error with its status code and headers. -/
theorem C3_read_classification_witness :
    NetworkAdapter.read (NetworkAdapter.init.set_up_cdm_request "http://x" [] "GET")
      (some ⟨200, "payload", [("k", "v")], true⟩) = .ok "payload" ∧
    NetworkAdapter.read (NetworkAdapter.init.set_up_cdm_request "http://x" [] "GET")
      (some ⟨503, "ignored", [("k", "v")], false⟩) =
      .error (.httpError "http://x" 503 "Failed to read" [("k", "v")]) :=
  ⟨(C3_read_classification _ _).1 ⟨200, "payload", [("k", "v")], true⟩ rfl rfl,
   (C3_read_classification _ _).2.1 ⟨503, "ignored", [("k", "v")], false⟩ rfl rfl⟩

/-- C4 counterexample: `update_network_config` enforces no relation between the fields:
updating a fresh adapter (timeout 2000, maximum_timeout 10000) with the well-formed
payload containing only timeout = 20000 leaves maximum_timeout at 10000 and breaks the
invariant timeout ≤ maximum_timeout. -/
theorem C4_invariant_counterexample :
    ¬ (((NetworkAdapter.init.update_network_config
          (some [("timeout", JValue.num 20000)])).1).timeout ≤
       ((NetworkAdapter.init.update_network_config
          (some [("timeout", JValue.num 20000)])).1).maximum_timeout) := by
  decide

/-- C4 (amended): the invariant timeout ≤ maximum_timeout holds at construction, and every
built descriptor copies the adapter's current timeout and maximum_timeout, so a descriptor
satisfies the invariant exactly when the adapter configuration it was built from does;
`update_network_config` does not itself preserve the invariant. -/
theorem C4_invariant_at_build (s : NetworkAdapter) (path : String)
    (headers : List (String × String)) (method : String)
    (h : s.timeout ≤ s.maximum_timeout) :
    NetworkAdapter.init.timeout ≤ NetworkAdapter.init.maximum_timeout ∧
    (s.set_up_cdm_request path headers method).timeout = s.timeout ∧
    (s.set_up_cdm_request path headers method).maximum_timeout = s.maximum_timeout ∧
    (s.set_up_cdm_request path headers method).timeout ≤
      (s.set_up_cdm_request path headers method).maximum_timeout := by
  exact ⟨by decide, rfl, rfl, h⟩

/-- C4 witness: the fresh adapter satisfies the invariant, so its descriptors do. -/
theorem C4_invariant_at_build_witness :
    (NetworkAdapter.init.set_up_cdm_request "http://x" [] "GET").timeout ≤
      (NetworkAdapter.init.set_up_cdm_request "http://x" [] "GET").maximum_timeout :=
  (C4_invariant_at_build NetworkAdapter.init "http://x" [] "GET" (by decide)).2.2.2

/-- C5: request construction fails with `InvalidArgument` exactly when the target is the
empty string or the method is unsupported, and otherwise succeeds, returning the purely
constructed descriptor (no side effects: the adapter state is not touched). -/
theorem C5_build_validation (s : NetworkAdapter) (path : String)
    (headers : List (String × String)) (method : String) :
    (s.build_request path headers method = .error CdmError.invalidArgument ↔
      path = "" ∨ SUPPORTED_METHODS.contains method = false) ∧
    (path ≠ "" → SUPPORTED_METHODS.contains method = true →
      s.build_request path headers method = .ok (s.set_up_cdm_request path headers method)) := by
  have hcond : (path = "" ∨ SUPPORTED_METHODS.contains method = false) ∨
      (path ≠ "" ∧ SUPPORTED_METHODS.contains method = true) := by
    by_cases hp : path = ""
    · exact Or.inl (Or.inl hp)
    · cases hm : SUPPORTED_METHODS.contains method
      · exact Or.inl (Or.inr rfl)
      · exact Or.inr ⟨hp, rfl⟩
  rcases hcond with hc | ⟨hp, hm⟩
  · refine ⟨⟨fun _ => hc, fun _ => ?_⟩, fun hp' hm' => ?_⟩
    · unfold NetworkAdapter.build_request
      rw [if_pos hc]
    · exfalso
      rcases hc with h | h
      · exact hp' h
      · rw [hm'] at h
        exact Bool.noConfusion h
  · have hneg : ¬ (path = "" ∨ SUPPORTED_METHODS.contains method = false) := by
      rintro (h | h)
      · exact hp h
      · rw [hm] at h
        exact Bool.noConfusion h
    refine ⟨⟨fun heq => ?_, fun h => absurd h hneg⟩, fun _ _ => ?_⟩
    · exfalso
      unfold NetworkAdapter.build_request at heq
      rw [if_neg hneg] at heq
      exact Except.noConfusion heq
    · unfold NetworkAdapter.build_request
      rw [if_neg hneg]

/-- C5 witness: a concrete non-empty target with a supported verb builds the descriptor,
at the fresh adapter's configuration. -/
theorem C5_build_validation_witness :
    NetworkAdapter.init.build_request "http://x" [] "GET" =
      .ok (NetworkAdapter.init.set_up_cdm_request "http://x" [] "GET") :=
  (C5_build_validation NetworkAdapter.init "http://x" [] "GET").2 (by decide) (by decide)

/-- Helper: per-field characterization of a successful `update_network_config`: each field
equals the payload's number when the key is bound to one, and the prior value otherwise,
and no error is raised. -/
theorem update_network_config_fields (s : NetworkAdapter) (obj : JObj) :
    ((s.update_network_config (some obj)).1.timeout =
      (match jget obj "timeout" with
        | some (JValue.num x) => x
        | _ => s.timeout)) ∧
    ((s.update_network_config (some obj)).1.maximum_timeout =
      (match jget obj "maximumTimeout" with
        | some (JValue.num x) => x
        | _ => s.maximum_timeout)) ∧
    ((s.update_network_config (some obj)).1.number_of_retries =
      (match jget obj "numberOfRetries" with
        | some (JValue.num x) => x
        | _ => s.number_of_retries)) ∧
    (s.update_network_config (some obj)).2 = none := by
  rcases h1 : jget obj "timeout" with _ | (_ | x1) <;>
    rcases h2 : jget obj "maximumTimeout" with _ | (_ | x2) <;>
      rcases h3 : jget obj "numberOfRetries" with _ | (_ | x3) <;>
        simp [NetworkAdapter.update_network_config, h1, h2, h3]

/-- Helper: looking a key up past a binding for a different key is unchanged. -/
theorem jget_cons_ne (k key : String) (v : JValue) (obj : JObj) (h : k ≠ key) :
    jget ((k, v) :: obj) key = jget obj key := by
  simp [jget, h]

/-- C6: a well-formed payload overwrites exactly the fields it binds to a number; a field
whose key is absent (or bound to null) keeps its prior value; a binding for an unknown key
has no effect on the result at all. -/
theorem C6_update_overwrites_exactly_present (s : NetworkAdapter) (obj : JObj) :
    (∀ x, jget obj "timeout" = some (JValue.num x) →
      (s.update_network_config (some obj)).1.timeout = x) ∧
    ((∀ x, jget obj "timeout" ≠ some (JValue.num x)) →
      (s.update_network_config (some obj)).1.timeout = s.timeout) ∧
    (∀ x, jget obj "maximumTimeout" = some (JValue.num x) →
      (s.update_network_config (some obj)).1.maximum_timeout = x) ∧
    ((∀ x, jget obj "maximumTimeout" ≠ some (JValue.num x)) →
      (s.update_network_config (some obj)).1.maximum_timeout = s.maximum_timeout) ∧
    (∀ x, jget obj "numberOfRetries" = some (JValue.num x) →
      (s.update_network_config (some obj)).1.number_of_retries = x) ∧
    ((∀ x, jget obj "numberOfRetries" ≠ some (JValue.num x)) →
      (s.update_network_config (some obj)).1.number_of_retries = s.number_of_retries) ∧
    (∀ k v, k ≠ "timeout" → k ≠ "maximumTimeout" → k ≠ "numberOfRetries" →
      s.update_network_config (some ((k, v) :: obj)) = s.update_network_config (some obj)) := by
  have hch := update_network_config_fields s obj
  refine ⟨?_, ?_, ?_, ?_, ?_, ?_, ?_⟩
  · intro x hx
    rw [hch.1, hx]
  · intro hx
    rw [hch.1]
    rcases hj : jget obj "timeout" with _ | (_ | y)
    · rfl
    · rfl
    · exact absurd hj (hx y)
  · intro x hx
    rw [hch.2.1, hx]
  · intro hx
    rw [hch.2.1]
    rcases hj : jget obj "maximumTimeout" with _ | (_ | y)
    · rfl
    · rfl
    · exact absurd hj (hx y)
  · intro x hx
    rw [hch.2.2.1, hx]
  · intro hx
    rw [hch.2.2.1]
    rcases hj : jget obj "numberOfRetries" with _ | (_ | y)
    · rfl
    · rfl
    · exact absurd hj (hx y)
  · intro k v hk1 hk2 hk3
    simp only [NetworkAdapter.update_network_config]
    rw [jget_cons_ne k "timeout" v obj hk1, jget_cons_ne k "maximumTimeout" v obj hk2,
      jget_cons_ne k "numberOfRetries" v obj hk3]

/-- C6 witness: a payload binding only timeout sets the timeout, and on the same adapter a
binding for an unknown key is a no-op. -/
theorem C6_update_overwrites_exactly_present_witness :
    (NetworkAdapter.init.update_network_config
      (some [("timeout", JValue.num 7)])).1.timeout = 7 ∧
    NetworkAdapter.init.update_network_config
        (some [("other", JValue.num 9), ("timeout", JValue.num 7)]) =
      NetworkAdapter.init.update_network_config (some [("timeout", JValue.num 7)]) :=
  ⟨(C6_update_overwrites_exactly_present NetworkAdapter.init
      [("timeout", JValue.num 7)]).1 7 rfl,
   (C6_update_overwrites_exactly_present NetworkAdapter.init
      [("timeout", JValue.num 7)]).2.2.2.2.2.2 "other" (JValue.num 9)
      (by decide) (by decide) (by decide)⟩

/-- C7: `fetch_network_config` right after a successful `update_network_config` reports the
payload's values for the keys the payload binds to numbers and the prior values for the
keys it omits (or binds to null). -/
theorem C7_export_reflects_update (s : NetworkAdapter) (obj : JObj) :
    (∀ x, jget obj "timeout" = some (JValue.num x) →
      ((s.update_network_config (some obj)).1.fetch_network_config).timeout = x) ∧
    ((∀ x, jget obj "timeout" ≠ some (JValue.num x)) →
      ((s.update_network_config (some obj)).1.fetch_network_config).timeout = s.timeout) ∧
    (∀ x, jget obj "maximumTimeout" = some (JValue.num x) →
      ((s.update_network_config (some obj)).1.fetch_network_config).maximumTimeout = x) ∧
    ((∀ x, jget obj "maximumTimeout" ≠ some (JValue.num x)) →
      ((s.update_network_config (some obj)).1.fetch_network_config).maximumTimeout =
        s.maximum_timeout) ∧
    (∀ x, jget obj "numberOfRetries" = some (JValue.num x) →
      ((s.update_network_config (some obj)).1.fetch_network_config).numberOfRetries = x) ∧
    ((∀ x, jget obj "numberOfRetries" ≠ some (JValue.num x)) →
      ((s.update_network_config (some obj)).1.fetch_network_config).numberOfRetries =
        s.number_of_retries) := by
  have hch := update_network_config_fields s obj
  refine ⟨?_, ?_, ?_, ?_, ?_, ?_⟩
  · intro x hx
    show (s.update_network_config (some obj)).1.timeout = x
    rw [hch.1, hx]
  · intro hx
    show (s.update_network_config (some obj)).1.timeout = s.timeout
    rw [hch.1]
    rcases hj : jget obj "timeout" with _ | (_ | y)
    · rfl
    · rfl
    · exact absurd hj (hx y)
  · intro x hx
    show (s.update_network_config (some obj)).1.maximum_timeout = x
    rw [hch.2.1, hx]
  · intro hx
    show (s.update_network_config (some obj)).1.maximum_timeout = s.maximum_timeout
    rw [hch.2.1]
    rcases hj : jget obj "maximumTimeout" with _ | (_ | y)
    · rfl
    · rfl
    · exact absurd hj (hx y)
  · intro x hx
    show (s.update_network_config (some obj)).1.number_of_retries = x
    rw [hch.2.2.1, hx]
  · intro hx
    show (s.update_network_config (some obj)).1.number_of_retries = s.number_of_retries
    rw [hch.2.2.1]
    rcases hj : jget obj "numberOfRetries" with _ | (_ | y)
    · rfl
    · rfl
    · exact absurd hj (hx y)

/-- C7 witness: updating only maximumTimeout is reflected in the snapshot, and the omitted
timeout keeps the fresh adapter's value. -/
theorem C7_export_reflects_update_witness :
    ((NetworkAdapter.init.update_network_config
        (some [("maximumTimeout", JValue.num 12000)])).1.fetch_network_config).maximumTimeout =
      12000 ∧
    ((NetworkAdapter.init.update_network_config
        (some [("maximumTimeout", JValue.num 12000)])).1.fetch_network_config).timeout =
      NetworkAdapter.init.timeout :=
  ⟨(C7_export_reflects_update NetworkAdapter.init
      [("maximumTimeout", JValue.num 12000)]).2.2.1 12000 rfl,
   (C7_export_reflects_update NetworkAdapter.init
      [("maximumTimeout", JValue.num 12000)]).2.1
      (by intro x hx; exact Option.noConfusion hx)⟩

/-- C8: a built descriptor embeds copies of the adapter's timeout, maximum_timeout and
retry budget taken at build time; after a later config update that changes the timeout, a
newly built descriptor's timeout differs from the earlier descriptor's, while the earlier
descriptor still carries the old value. -/
theorem C8_build_copies_config (s : NetworkAdapter) (obj : JObj) (path : String)
    (headers : List (String × String)) (method : String) :
    ((s.set_up_cdm_request path headers method).timeout = s.timeout ∧
     (s.set_up_cdm_request path headers method).maximum_timeout = s.maximum_timeout ∧
     (s.set_up_cdm_request path headers method).number_of_retries = s.number_of_retries) ∧
    (∀ x, jget obj "timeout" = some (JValue.num x) → x ≠ s.timeout →
      (((s.update_network_config (some obj)).1).set_up_cdm_request path headers
          method).timeout ≠
        (s.set_up_cdm_request path headers method).timeout) := by
  refine ⟨⟨rfl, rfl, rfl⟩, ?_⟩
  intro x hx hne
  show (s.update_network_config (some obj)).1.timeout ≠ s.timeout
  rw [(update_network_config_fields s obj).1, hx]
  exact hne

/-- C8 witness: with the timeout updated from 2000 to 5000, the descriptor built after the
update embeds a different timeout than the one built before. -/
theorem C8_build_copies_config_witness :
    (((NetworkAdapter.init.update_network_config
          (some [("timeout", JValue.num 5000)])).1).set_up_cdm_request "http://x" []
        "GET").timeout ≠
      (NetworkAdapter.init.set_up_cdm_request "http://x" [] "GET").timeout :=
  (C8_build_copies_config NetworkAdapter.init [("timeout", JValue.num 5000)] "http://x" []
    "GET").2 5000 rfl (by decide)
